import Mathlib

/-!
Shallow embedding of the face-detection geometry and match-selection core of
the repository (src/src/utils/faceDetectionUtils.ts and the extended utility
module src/unnamed/part_000).  Numbers are modelled as exact rationals;
JavaScript `Math.round` is modelled as floor at one half above, matching
round-half-toward-positive-infinity.  Strings are Lean strings.
-/

/-- JavaScript `Math.round`: round half toward positive infinity. -/
def jsRound (q : ℚ) : ℤ := ⌊q + 1/2⌋

/-- Normalized bounding box, fields in source order (Height, Left, Top, Width). -/
structure BoundingBox where
  Height : ℚ
  Left : ℚ
  Top : ℚ
  Width : ℚ
deriving DecidableEq

/-- S3 object locator carried by a face image (unused by the core logic). -/
structure S3ObjectRef where
  Bucket : String
  Name : String
  Version : String
deriving DecidableEq

/-- A captured face image: bounding box plus optional inline bytes or S3 locator. -/
structure FaceImage where
  BoundingBox : BoundingBox
  Bytes : Option String
  S3Object : Option S3ObjectRef
deriving DecidableEq

/-- Head pose metadata of a matched face. -/
structure FacePose where
  Yaw : ℚ
  Roll : ℚ
  Pitch : ℚ
deriving DecidableEq

/-- Image-quality metadata of a matched face. -/
structure FaceQuality where
  Sharpness : ℚ
  Brightness : ℚ
deriving DecidableEq

/-- The face record inside a match candidate.  The optional landmark list of the
source interface is unused by every operation modelled here and is omitted. -/
structure FaceRecord where
  BoundingBox : BoundingBox
  Confidence : ℚ
  Pose : Option FacePose
  Quality : Option FaceQuality
deriving DecidableEq

/-- One candidate match returned by the comparison service. -/
structure FaceMatch where
  Face : FaceRecord
  Similarity : ℚ
deriving DecidableEq

/-- The face detected in the source image of a comparison. -/
structure SourceImageFace where
  BoundingBox : BoundingBox
  Confidence : ℚ
deriving DecidableEq

/-- Result of comparing the liveness face with one reference identity.
The source declares `unmatchedFaces` with element type `any`; it is never
inspected by the modelled operations, and is typed here as further match
records. -/
structure FaceComparisonResult where
  success : Bool
  «matches» : List FaceMatch
  unmatchedFaces : List FaceMatch
  sourceImageFace : SourceImageFace
  error : Option String
  personId : Option String
  personName : Option String
deriving DecidableEq

/-- Pixel-space rectangle produced by the coordinate conversion. -/
structure PixelCoords where
  left : ℤ
  top : ℤ
  width : ℤ
  height : ℤ
deriving DecidableEq

/-- `normalizedToPixelCoords` from the source: multiplies each normalized field
by the matching image dimension and applies `Math.round`.  The source performs
no validation of the dimensions. -/
def normalizedToPixelCoords (boundingBox : BoundingBox) (imageWidth imageHeight : ℚ) :
    PixelCoords :=
  { left := jsRound (boundingBox.Left * imageWidth)
    top := jsRound (boundingBox.Top * imageHeight)
    width := jsRound (boundingBox.Width * imageWidth)
    height := jsRound (boundingBox.Height * imageHeight) }

/-- Modelled from the spec: the spec error taxonomy (InvalidInput) demands that
pixel conversion with non-positive image dimensions fail fast instead of
returning pixel values.  No such checked conversion exists in the source; this
definition follows the spec words, gating the same rounded products behind the
precondition imageWidth > 0 and imageHeight > 0. -/
def normalizedToPixelCoordsChecked (boundingBox : BoundingBox)
    (imageWidth imageHeight : ℚ) : Option PixelCoords :=
  if 0 < imageWidth ∧ 0 < imageHeight then
    some { left := jsRound (boundingBox.Left * imageWidth)
           top := jsRound (boundingBox.Top * imageHeight)
           width := jsRound (boundingBox.Width * imageWidth)
           height := jsRound (boundingBox.Height * imageHeight) }
  else none

/-- `calculateBoundingBoxArea` from the source: width times height. -/
def calculateBoundingBoxArea (boundingBox : BoundingBox) : ℚ :=
  boundingBox.Width * boundingBox.Height

/-- `isFaceCentered` from the source: both center coordinates within
`tolerance` of 0.5.  The source default tolerance 0.2 is passed explicitly at
call sites here. -/
def isFaceCentered (boundingBox : BoundingBox) (tolerance : ℚ) : Bool :=
  let centerX := boundingBox.Left + boundingBox.Width / 2
  let centerY := boundingBox.Top + boundingBox.Height / 2
  decide (|centerX - 0.5| ≤ tolerance ∧ |centerY - 0.5| ≤ tolerance)

/-- `getFaceQualityScore` from the source: size term capped at 70, +20 when
centered at tolerance 0.15, +10 when the area lies in [0.1, 0.4], then
`Math.min(Math.round(score), 100)`. -/
def getFaceQualityScore (boundingBox : BoundingBox) : ℚ :=
  let area := calculateBoundingBoxArea boundingBox
  let isCentered := isFaceCentered boundingBox 0.15
  let score := min (area * 400) 70
  let score := if isCentered then score + 20 else score
  let score := if 0.1 ≤ area ∧ area ≤ 0.4 then score + 10 else score
  ((min (jsRound score) 100 : ℤ) : ℚ)

/-- `compareFaceBoundingBoxes` from the source: intersection over union of the
two axis-aligned rectangles, 0 when they do not overlap. -/
def compareFaceBoundingBoxes (box1 box2 : BoundingBox) : ℚ :=
  let left := max box1.Left box2.Left
  let top := max box1.Top box2.Top
  let right := min (box1.Left + box1.Width) (box2.Left + box2.Width)
  let bottom := min (box1.Top + box1.Height) (box2.Top + box2.Height)
  if right ≤ left ∨ bottom ≤ top then 0
  else
    let intersection := (right - left) * (bottom - top)
    let area1 := box1.Width * box1.Height
    let area2 := box2.Width * box2.Height
    let union := area1 + area2 - intersection
    intersection / union

/-- The two rectangles overlap with strictly positive area (the negation of the
early-return condition of `compareFaceBoundingBoxes`). -/
def boxesOverlap (box1 box2 : BoundingBox) : Prop :=
  max box1.Left box2.Left < min (box1.Left + box1.Width) (box2.Left + box2.Width) ∧
  max box1.Top box2.Top < min (box1.Top + box1.Height) (box2.Top + box2.Height)

instance (box1 box2 : BoundingBox) : Decidable (boxesOverlap box1 box2) := by
  unfold boxesOverlap; infer_instance

/-- All four fields of the box lie in the normalized range [0, 1]. -/
def ValidBox (b : BoundingBox) : Prop :=
  0 ≤ b.Left ∧ b.Left ≤ 1 ∧ 0 ≤ b.Top ∧ b.Top ≤ 1 ∧
  0 ≤ b.Width ∧ b.Width ≤ 1 ∧ 0 ≤ b.Height ∧ b.Height ≤ 1

instance (b : BoundingBox) : Decidable (ValidBox b) := by
  unfold ValidBox; infer_instance

/-- Output record of `analyzeFaceDetectionResults`. -/
structure FaceAnalysis where
  hasReferenceImage : Bool
  auditImageCount : Nat
  averageQualityScore : ℚ
  consistencyScore : ℚ
  recommendations : List String
deriving DecidableEq

/-- `analyzeFaceDetectionResults` from the source.  The source builds the
recommendation list by sequential pushes; the same order is kept here as a
concatenation of conditional singletons.  The guard on the final default
message is the source test `recommendations.length === 0`. -/
def analyzeFaceDetectionResults (referenceImage : Option FaceImage)
    (auditImages : List FaceImage) : FaceAnalysis :=
  match referenceImage with
  | none =>
    { hasReferenceImage := false
      auditImageCount := auditImages.length
      averageQualityScore := 0
      consistencyScore := 0
      recommendations := ["No reference image available"] }
  | some referenceImg =>
    let qualityScores :=
      getFaceQualityScore referenceImg.BoundingBox ::
        auditImages.map (fun img => getFaceQualityScore img.BoundingBox)
    let averageQualityScore :=
      qualityScores.foldl (· + ·) 0 / (qualityScores.length : ℚ)
    let consistencyScore :=
      if 0 < auditImages.length then
        (auditImages.map (fun img =>
            compareFaceBoundingBoxes referenceImg.BoundingBox img.BoundingBox)).foldl
            (· + ·) 0 / (auditImages.length : ℚ)
      else 0
    let recommendations :=
      (if averageQualityScore < 70 then
        ["Consider retaking - face quality could be improved"] else [])
      ++ (if consistencyScore < 0.7 ∧ 0 < auditImages.length then
        ["Inconsistent face detection across images"] else [])
      ++ (if ¬ (isFaceCentered referenceImg.BoundingBox 0.2 = true) then
        ["Face should be more centered in the frame"] else [])
      ++ (if calculateBoundingBoxArea referenceImg.BoundingBox < 0.1 then
        ["Face appears too small - move closer to camera"] else [])
      ++ (if 0.5 < calculateBoundingBoxArea referenceImg.BoundingBox then
        ["Face appears too large - move away from camera"] else [])
    let recommendations :=
      if recommendations.length = 0 then ["Face detection quality is good"]
      else recommendations
    { hasReferenceImage := true
      auditImageCount := auditImages.length
      averageQualityScore := averageQualityScore
      consistencyScore := consistencyScore
      recommendations := recommendations }

/-- The quality scores averaged by the analysis: the subject box first, then
every audit box. -/
def qualityList (referenceImg : FaceImage) (auditImages : List FaceImage) : List ℚ :=
  getFaceQualityScore referenceImg.BoundingBox ::
    auditImages.map (fun img => getFaceQualityScore img.BoundingBox)

/-- Claim-side average quality: the mean of the quality scores of the subject
box plus all audit boxes. -/
def specAverageQuality (referenceImg : FaceImage) (auditImages : List FaceImage) : ℚ :=
  (qualityList referenceImg auditImages).sum / ((qualityList referenceImg auditImages).length : ℚ)

/-- Claim-side consistency: the mean IoU of the subject box against each audit
box, and 0 when there are no audit boxes. -/
def specConsistency (referenceImg : FaceImage) (auditImages : List FaceImage) : ℚ :=
  if auditImages.length = 0 then 0
  else
    (auditImages.map (fun img =>
        compareFaceBoundingBoxes referenceImg.BoundingBox img.BoundingBox)).sum /
      (auditImages.length : ℚ)

/-- Claim-side recommendations: exactly the messages of rules a-e, evaluated
independently in the listed order (quality below 70; audit boxes present with
consistency below 0.7; subject not centered at tolerance 0.2; area below 0.1;
area above 0.5), or the single good-quality message when no rule fired. -/
def specRecommendations (referenceImg : FaceImage) (auditImages : List FaceImage) :
    List String :=
  let avg := specAverageQuality referenceImg auditImages
  let cons := specConsistency referenceImg auditImages
  let fired :=
    (if avg < 70 then
      ["Consider retaking - face quality could be improved"] else [])
    ++ (if 0 < auditImages.length ∧ cons < 0.7 then
      ["Inconsistent face detection across images"] else [])
    ++ (if ¬ (isFaceCentered referenceImg.BoundingBox 0.2 = true) then
      ["Face should be more centered in the frame"] else [])
    ++ (if calculateBoundingBoxArea referenceImg.BoundingBox < 0.1 then
      ["Face appears too small - move closer to camera"] else [])
    ++ (if 0.5 < calculateBoundingBoxArea referenceImg.BoundingBox then
      ["Face appears too large - move away from camera"] else [])
  if fired = [] then ["Face detection quality is good"] else fired

/-- Similarity of the first (highest-ranked) candidate match, 0 for an empty
match list.  `findBestMatch` only reads it under a non-emptiness guard, and the
report reads it through the `|| 0` fallback of the source. -/
def topSimilarity (r : FaceComparisonResult) : ℚ :=
  match r.«matches» with
  | [] => 0
  | m :: _ => m.Similarity

/-- The loop guard of `findBestMatch` that does not involve the running best:
a successful outcome with at least one candidate whose top similarity meets the
minimum. -/
def basicQualifier (minimumSimilarity : ℚ) (r : FaceComparisonResult) : Prop :=
  r.success = true ∧ r.«matches» ≠ [] ∧ minimumSimilarity ≤ topSimilarity r

instance (minimumSimilarity : ℚ) (r : FaceComparisonResult) :
    Decidable (basicQualifier minimumSimilarity r) := by
  unfold basicQualifier; infer_instance

/-- The loop of `findBestMatch` from the source: scans outcomes in order,
carrying the current best outcome and the highest similarity seen, updating on
a strict improvement that also meets the minimum. -/
def findBestMatchGo (minimumSimilarity : ℚ) :
    List FaceComparisonResult → Option FaceComparisonResult → ℚ →
      Option FaceComparisonResult
  | [], bestMatch, _ => bestMatch
  | result :: rest, bestMatch, highestSimilarity =>
    if basicQualifier minimumSimilarity result ∧ highestSimilarity < topSimilarity result then
      findBestMatchGo minimumSimilarity rest (some result) (topSimilarity result)
    else
      findBestMatchGo minimumSimilarity rest bestMatch highestSimilarity

/-- `findBestMatch` from the source: the loop started with no best match and a
highest similarity of 0. -/
def findBestMatch (comparisonResults : List FaceComparisonResult)
    (minimumSimilarity : ℚ) : Option FaceComparisonResult :=
  findBestMatchGo minimumSimilarity comparisonResults none 0

/-- Top similarities of the outcomes that are successful, have a candidate and
meet the minimum similarity. -/
def qualifyingSims (minimumSimilarity : ℚ) (results : List FaceComparisonResult) :
    List ℚ :=
  (results.filter (fun r => decide (basicQualifier minimumSimilarity r))).map topSimilarity

/-- The highest similarity the loop of `findBestMatch` has seen after the given
outcomes, starting from `h`: the maximum of `h` and the top similarities of the
qualifying outcomes. -/
def runningMax (minimumSimilarity : ℚ) (results : List FaceComparisonResult) (h : ℚ) : ℚ :=
  results.foldr
    (fun r a => if basicQualifier minimumSimilarity r then max (topSimilarity r) a else a) h

/-- Claim-side highest qualifying similarity (at least 0). -/
def highestQualifyingSim (minimumSimilarity : ℚ) (results : List FaceComparisonResult) : ℚ :=
  (qualifyingSims minimumSimilarity results).foldr max 0

/-- Amended claim-side selector: the first-encountered outcome among successful
outcomes with a non-empty match list whose top similarity meets the minimum,
is strictly positive, and is the highest such similarity.  Ties go to the
earliest such outcome. -/
def selectBestMatchSpec (results : List FaceComparisonResult)
    (minimumSimilarity : ℚ) : Option FaceComparisonResult :=
  results.find? (fun r =>
    decide (basicQualifier minimumSimilarity r) &&
    decide (0 < topSimilarity r) &&
    decide (topSimilarity r = highestQualifyingSim minimumSimilarity results))

/-- Maximum of a list of rationals, none for the empty list. -/
def maxQ : List ℚ → Option ℚ
  | [] => none
  | s :: rest =>
    some (match maxQ rest with
      | none => s
      | some m => max s m)

/-- The claim exactly as stated: the first-encountered outcome among successful
outcomes with a non-empty match list whose top similarity meets the minimum and
is the highest such similarity; none when no outcome qualifies.  No positivity
requirement appears in the claim. -/
def selectBestMatchClaimed (results : List FaceComparisonResult)
    (minimumSimilarity : ℚ) : Option FaceComparisonResult :=
  match maxQ (qualifyingSims minimumSimilarity results) with
  | none => none
  | some m =>
    results.find? (fun r =>
      decide (basicQualifier minimumSimilarity r) && decide (topSimilarity r = m))

/-- `some`-preserving fallback: the first option when present, otherwise the
second. -/
def fallback (o b : Option FaceComparisonResult) : Option FaceComparisonResult :=
  match o with
  | some x => some x
  | none => b

/-- The predicate the `findBestMatch` loop is proved to select by: a qualifying
outcome strictly above the start value whose similarity equals the running
maximum over the whole list. -/
def selectorPred (minimumSimilarity : ℚ) (results : List FaceComparisonResult)
    (h : ℚ) (r : FaceComparisonResult) : Bool :=
  decide (basicQualifier minimumSimilarity r) &&
  decide (h < topSimilarity r) &&
  decide (topSimilarity r = runningMax minimumSimilarity results h)

/-- A named reference identity with its encoded image. -/
structure ReferenceImage where
  id : String
  name : String
  imageBase64 : String
deriving DecidableEq

/-- `compareLivenessFaceWithReferences` from the source: one comparison call
per reference image, sequentially in input order; a failing call is caught and
converted into a failed outcome tagged with the identity of that reference.
The external comparison API (`compareFacesAPI`, a remote HTTP call) is passed
in as a function returning either an outcome or a thrown error message. -/
def compareLivenessFaceWithReferences
    (compareFacesAPI : String → String → ℚ → Except String FaceComparisonResult)
    (livenessImageBase64 : String) (referenceImages : List ReferenceImage)
    (similarityThreshold : ℚ) : List FaceComparisonResult :=
  referenceImages.map (fun refImage =>
    match compareFacesAPI livenessImageBase64 refImage.imageBase64 similarityThreshold with
    | Except.ok comparisonResult =>
      { comparisonResult with
          personId := some refImage.id
          personName := some refImage.name }
    | Except.error e =>
      { success := false
        «matches» := []
        unmatchedFaces := []
        sourceImageFace :=
          { BoundingBox := { Height := 0, Left := 0, Top := 0, Width := 0 }
            Confidence := 0 }
        error := some ("Failed to compare with " ++ refImage.name ++ ": " ++ e)
        personId := some refImage.id
        personName := some refImage.name })

/-- The liveness-result fields read by `createIdentificationReport` (the source
parameter is untyped). -/
structure LivenessResult where
  isLive : Bool
  confidence : ℚ
  sessionId : String
  status : String
deriving DecidableEq

/-- Liveness section of the identification report. -/
structure LivenessCheck where
  passed : Bool
  confidence : ℚ
  sessionId : String
  status : String
deriving DecidableEq

/-- Best-match section of the identification report. -/
structure BestMatchSummary where
  personId : Option String
  personName : Option String
  similarity : ℚ
  confidence : ℚ
deriving DecidableEq

/-- Per-outcome summary line of the identification report. -/
structure ResultSummary where
  personId : Option String
  personName : Option String
  success : Bool
  similarity : ℚ
  error : Option String
deriving DecidableEq

/-- Comparison section of the identification report. -/
structure FaceComparisonReport where
  totalComparisons : Nat
  successfulComparisons : Nat
  bestMatch : Option BestMatchSummary
  allResults : List ResultSummary
deriving DecidableEq

/-- The identification report assembled by `createIdentificationReport`. -/
structure IdentificationReport where
  timestamp : String
  livenessCheck : LivenessCheck
  faceComparison : FaceComparisonReport
  recommendation : String
  isIdentified : Bool
deriving DecidableEq

/-- Rendering of a non-negative rational with exactly two decimal places:
the integer nearest to one hundred times the value, ties toward positive
infinity, printed as integer part, a dot and two fraction digits. -/
def jsToFixed2Abs (q : ℚ) : String :=
  let n : ℕ := (jsRound (q * 100)).toNat
  let ip := n / 100
  let fp := n % 100
  Nat.repr ip ++ "." ++ (if fp < 10 then "0" ++ Nat.repr fp else Nat.repr fp)

/-- ECMAScript `Number.prototype.toFixed(2)` on exact rationals: sign split,
then two-decimal rounding of the magnitude with ties toward the larger
candidate. -/
def jsToFixed2 (q : ℚ) : String :=
  if q < 0 then "-" ++ jsToFixed2Abs (-q) else jsToFixed2Abs q

/-- First-candidate face confidence, through the `|| 0` fallback of the
source. -/
def topConfidence (r : FaceComparisonResult) : ℚ :=
  match r.«matches» with
  | [] => 0
  | m :: _ => m.Face.Confidence

/-- JavaScript template interpolation of a possibly-undefined string. -/
def optionText (s : Option String) : String :=
  match s with
  | some x => x
  | none => "undefined"

/-- Best-match section built from the winning outcome. -/
def bestMatchSummaryOf (bm : FaceComparisonResult) : BestMatchSummary :=
  { personId := bm.personId
    personName := bm.personName
    similarity := topSimilarity bm
    confidence := topConfidence bm }

/-- Per-outcome summary line built from one outcome. -/
def resultSummaryOf (r : FaceComparisonResult) : ResultSummary :=
  { personId := r.personId
    personName := r.personName
    success := r.success
    similarity := topSimilarity r
    error := r.error }

/-- Recommendation text of the report: the identified-as sentence with the
two-decimal similarity when a best match exists, else the no-match sentence.
When the winning outcome had no candidate the source optional chain would
interpolate the text undefined; that branch is unreachable from
`findBestMatch`. -/
def recommendationText (bestMatch : Option FaceComparisonResult) : String :=
  match bestMatch with
  | some bm =>
    "Identified as " ++ optionText bm.personName ++ " with " ++
      (match bm.«matches» with
        | [] => "undefined"
        | m :: _ => jsToFixed2 m.Similarity) ++ "% similarity"
  | none => "No matching person found in reference database"

/-- `createIdentificationReport` from the source.  The source stamps the report
with `new Date().toISOString()`; the clock is an external input and is modelled
as the explicit first argument `now`. -/
def createIdentificationReport (now : String) (livenessResult : LivenessResult)
    (comparisonResults : List FaceComparisonResult) : IdentificationReport :=
  let bestMatch := findBestMatch comparisonResults 80
  { timestamp := now
    livenessCheck :=
      { passed := livenessResult.isLive
        confidence := livenessResult.confidence
        sessionId := livenessResult.sessionId
        status := livenessResult.status }
    faceComparison :=
      { totalComparisons := comparisonResults.length
        successfulComparisons := (comparisonResults.filter (fun r => r.success)).length
        bestMatch := bestMatch.map bestMatchSummaryOf
        allResults := comparisonResults.map resultSummaryOf }
    recommendation := recommendationText bestMatch
    isIdentified := bestMatch.isSome }

/-- A neutral zero box used by concrete test inputs. -/
def zeroBox : BoundingBox := { Height := 0, Left := 0, Top := 0, Width := 0 }

/-- A concrete successful outcome whose single candidate has the given
similarity and name. -/
def mkOutcome (similarity : ℚ) (name : String) : FaceComparisonResult :=
  { success := true
    «matches» :=
      [{ Face := { BoundingBox := zeroBox, Confidence := 99, Pose := none, Quality := none }
         Similarity := similarity }]
    unmatchedFaces := []
    sourceImageFace := { BoundingBox := zeroBox, Confidence := 99 }
    error := none
    personId := some "person-1"
    personName := some name }

/-- A concrete liveness result for the closed counterexamples. -/
def livSample : LivenessResult :=
  { isLive := true, confidence := 99, sessionId := "session-1", status := "SUCCEEDED" }

/-- A centered box of area 0.09 (fields H = 0.3, L = 0.35, T = 0.35, W = 0.3). -/
def boxSmallCentered : BoundingBox :=
  { Height := 3/10, Left := 7/20, Top := 7/20, Width := 3/10 }

/-- The 0.2-sided box at the origin from the spec non-overlap example. -/
def boxCorner : BoundingBox := { Height := 1/5, Left := 0, Top := 0, Width := 1/5 }

/-- The 0.2-sided box at (0.5, 0.5) from the spec non-overlap example. -/
def boxFar : BoundingBox := { Height := 1/5, Left := 1/2, Top := 1/2, Width := 1/5 }

/-- A concrete reference identity for closed instances. -/
def refAlice : ReferenceImage := { id := "id-1", name := "Alice", imageBase64 := "imgA" }

/-- A comparison API that always throws. -/
def apiBoom : String → String → ℚ → Except String FaceComparisonResult :=
  fun _ _ _ => Except.error "boom"

/-- The failed outcome the driver records for `refAlice` when the call throws
the message boom. -/
def failedAliceOutcome : FaceComparisonResult :=
  { success := false
    «matches» := []
    unmatchedFaces := []
    sourceImageFace := { BoundingBox := zeroBox, Confidence := 0 }
    error := some "Failed to compare with Alice: boom"
    personId := some "id-1"
    personName := some "Alice" }

/-- C6: for bounding boxes with fields in [0, 1], the IoU lies in [0, 1], it is
0 exactly when the rectangles do not overlap with positive area, and when they
overlap both the union and the IoU are strictly positive. -/
theorem c6_iou_range_and_zero (b1 b2 : BoundingBox) (h1 : ValidBox b1) (h2 : ValidBox b2) :
    0 ≤ compareFaceBoundingBoxes b1 b2 ∧ compareFaceBoundingBoxes b1 b2 ≤ 1 ∧
    (compareFaceBoundingBoxes b1 b2 = 0 ↔ ¬ boxesOverlap b1 b2) ∧
    (boxesOverlap b1 b2 →
      0 < b1.Width * b1.Height + b2.Width * b2.Height -
        (min (b1.Left + b1.Width) (b2.Left + b2.Width) - max b1.Left b2.Left) *
          (min (b1.Top + b1.Height) (b2.Top + b2.Height) - max b1.Top b2.Top) ∧
      0 < compareFaceBoundingBoxes b1 b2) := by
  obtain ⟨-, -, -, -, hw1, -, hh1, -⟩ := h1
  obtain ⟨-, -, -, -, hw2, -, hh2, -⟩ := h2
  unfold compareFaceBoundingBoxes boxesOverlap
  set l := max b1.Left b2.Left with hl
  set t := max b1.Top b2.Top with ht
  set r := min (b1.Left + b1.Width) (b2.Left + b2.Width) with hr
  set bt := min (b1.Top + b1.Height) (b2.Top + b2.Height) with hbt
  by_cases hov : l < r ∧ t < bt
  · have hif : ¬ (r ≤ l ∨ bt ≤ t) := by push_neg; exact ⟨hov.1, hov.2⟩
    rw [if_neg hif]
    have hrl : 0 < r - l := sub_pos.mpr hov.1
    have hbt' : 0 < bt - t := sub_pos.mpr hov.2
    have hI : 0 < (r - l) * (bt - t) := mul_pos hrl hbt'
    have hrW1 : r - l ≤ b1.Width := by
      have ha : r ≤ b1.Left + b1.Width := by rw [hr]; exact min_le_left _ _
      have hb : b1.Left ≤ l := by rw [hl]; exact le_max_left _ _
      linarith
    have hbH1 : bt - t ≤ b1.Height := by
      have ha : bt ≤ b1.Top + b1.Height := by rw [hbt]; exact min_le_left _ _
      have hb : b1.Top ≤ t := by rw [ht]; exact le_max_left _ _
      linarith
    have hrW2 : r - l ≤ b2.Width := by
      have ha : r ≤ b2.Left + b2.Width := by rw [hr]; exact min_le_right _ _
      have hb : b2.Left ≤ l := by rw [hl]; exact le_max_right _ _
      linarith
    have hbH2 : bt - t ≤ b2.Height := by
      have ha : bt ≤ b2.Top + b2.Height := by rw [hbt]; exact min_le_right _ _
      have hb : b2.Top ≤ t := by rw [ht]; exact le_max_right _ _
      linarith
    have hIle1 : (r - l) * (bt - t) ≤ b1.Width * b1.Height :=
      mul_le_mul hrW1 hbH1 hbt'.le (le_trans hrl.le hrW1)
    have hIle2 : (r - l) * (bt - t) ≤ b2.Width * b2.Height :=
      mul_le_mul hrW2 hbH2 hbt'.le (le_trans hrl.le hrW2)
    have hU : 0 < b1.Width * b1.Height + b2.Width * b2.Height - (r - l) * (bt - t) := by
      linarith
    have hIU : (r - l) * (bt - t) ≤
        b1.Width * b1.Height + b2.Width * b2.Height - (r - l) * (bt - t) := by
      linarith
    have hpos : 0 < (r - l) * (bt - t) /
        (b1.Width * b1.Height + b2.Width * b2.Height - (r - l) * (bt - t)) :=
      div_pos hI hU
    refine ⟨hpos.le, (div_le_one hU).mpr hIU, ?_, fun _ => ⟨hU, hpos⟩⟩
    exact iff_of_false hpos.ne' (not_not_intro hov)
  · have hif : r ≤ l ∨ bt ≤ t := by
      rcases not_and_or.mp hov with h | h
      · exact Or.inl (not_lt.mp h)
      · exact Or.inr (not_lt.mp h)
    rw [if_pos hif]
    exact ⟨le_refl 0, by norm_num, iff_of_true rfl hov, fun hc => absurd hc hov⟩

/-- C6 witness: the two spec example boxes are valid, and the conclusions of
the range-and-zero theorem hold for them. -/
theorem c6_iou_witness :
    ValidBox boxCorner ∧ ValidBox boxFar ∧
    (0 ≤ compareFaceBoundingBoxes boxCorner boxFar ∧
      compareFaceBoundingBoxes boxCorner boxFar ≤ 1 ∧
      (compareFaceBoundingBoxes boxCorner boxFar = 0 ↔ ¬ boxesOverlap boxCorner boxFar) ∧
      (boxesOverlap boxCorner boxFar →
        0 < boxCorner.Width * boxCorner.Height + boxFar.Width * boxFar.Height -
          (min (boxCorner.Left + boxCorner.Width) (boxFar.Left + boxFar.Width) -
              max boxCorner.Left boxFar.Left) *
            (min (boxCorner.Top + boxCorner.Height) (boxFar.Top + boxFar.Height) -
              max boxCorner.Top boxFar.Top) ∧
        0 < compareFaceBoundingBoxes boxCorner boxFar)) := by
  refine ⟨?_, ?_, c6_iou_range_and_zero boxCorner boxFar ?_ ?_⟩ <;>
    norm_num [ValidBox, boxCorner, boxFar]

/-- C9: the IoU of any valid box of strictly positive area with itself is 1. -/
theorem c9_iou_self (b : BoundingBox) (hb : ValidBox b)
    (hw : 0 < b.Width) (hh : 0 < b.Height) :
    compareFaceBoundingBoxes b b = 1 := by
  unfold compareFaceBoundingBoxes
  simp only [max_self, min_self]
  have hif : ¬ (b.Left + b.Width ≤ b.Left ∨ b.Top + b.Height ≤ b.Top) := by
    push_neg
    constructor <;> linarith
  rw [if_neg hif]
  have harea : (b.Left + b.Width - b.Left) * (b.Top + b.Height - b.Top) =
      b.Width * b.Height := by ring
  rw [harea]
  have h0 : b.Width * b.Height ≠ 0 := (mul_pos hw hh).ne'
  rw [show b.Width * b.Height + b.Width * b.Height - b.Width * b.Height =
    b.Width * b.Height by ring]
  exact div_self h0

/-- C9 witness: the small centered box is valid with positive sides and its
self-IoU is 1. -/
theorem c9_iou_self_witness :
    ValidBox boxSmallCentered ∧ (0 : ℚ) < boxSmallCentered.Width ∧
    (0 : ℚ) < boxSmallCentered.Height ∧
    compareFaceBoundingBoxes boxSmallCentered boxSmallCentered = 1 := by
  refine ⟨?_, ?_, ?_, c9_iou_self boxSmallCentered ?_ ?_ ?_⟩ <;>
    norm_num [ValidBox, boxSmallCentered]

/-- C4: for every bounding box with all four fields in [0, 1], the quality
score equals min(round(min(area*400, 70) + 20 if centered at tolerance 0.15
+ 10 if 0.1 <= area <= 0.4), 100), and is an integer in [0, 100]. -/
theorem c4_quality_score (b : BoundingBox) (hb : ValidBox b) :
    getFaceQualityScore b =
      ((min (jsRound (min (calculateBoundingBoxArea b * 400) 70
          + (if isFaceCentered b 0.15 then 20 else 0)
          + (if 0.1 ≤ calculateBoundingBoxArea b ∧ calculateBoundingBoxArea b ≤ 0.4
              then 10 else 0))) 100 : ℤ) : ℚ)
    ∧ (∃ n : ℤ, getFaceQualityScore b = (n : ℚ))
    ∧ 0 ≤ getFaceQualityScore b ∧ getFaceQualityScore b ≤ 100 := by
  obtain ⟨-, -, -, -, hw, -, hh, -⟩ := hb
  have harea : 0 ≤ calculateBoundingBoxArea b := mul_nonneg hw hh
  have hbase : (0 : ℚ) ≤ min (calculateBoundingBoxArea b * 400) 70 :=
    le_min (by positivity) (by norm_num)
  have hform : getFaceQualityScore b =
      ((min (jsRound (min (calculateBoundingBoxArea b * 400) 70
          + (if isFaceCentered b 0.15 then 20 else 0)
          + (if 0.1 ≤ calculateBoundingBoxArea b ∧ calculateBoundingBoxArea b ≤ 0.4
              then 10 else 0))) 100 : ℤ) : ℚ) := by
    simp only [getFaceQualityScore]
    split_ifs <;> norm_num
  have hscore : (0 : ℚ) ≤ min (calculateBoundingBoxArea b * 400) 70
      + (if isFaceCentered b 0.15 then 20 else 0)
      + (if 0.1 ≤ calculateBoundingBoxArea b ∧ calculateBoundingBoxArea b ≤ 0.4
          then 10 else 0) := by
    split_ifs <;> linarith
  have hround : (0 : ℤ) ≤ jsRound (min (calculateBoundingBoxArea b * 400) 70
      + (if isFaceCentered b 0.15 then 20 else 0)
      + (if 0.1 ≤ calculateBoundingBoxArea b ∧ calculateBoundingBoxArea b ≤ 0.4
          then 10 else 0)) := by
    unfold jsRound
    rw [Int.le_floor]
    push_cast
    linarith
  refine ⟨hform, ⟨_, hform⟩, ?_, ?_⟩
  · rw [hform]
    have : (0 : ℤ) ≤ min (jsRound (min (calculateBoundingBoxArea b * 400) 70
        + (if isFaceCentered b 0.15 then 20 else 0)
        + (if 0.1 ≤ calculateBoundingBoxArea b ∧ calculateBoundingBoxArea b ≤ 0.4
            then 10 else 0))) 100 := le_min hround (by norm_num)
    exact_mod_cast this
  · rw [hform]
    have : min (jsRound (min (calculateBoundingBoxArea b * 400) 70
        + (if isFaceCentered b 0.15 then 20 else 0)
        + (if 0.1 ≤ calculateBoundingBoxArea b ∧ calculateBoundingBoxArea b ≤ 0.4
            then 10 else 0))) 100 ≤ (100 : ℤ) := min_le_right _ _
    exact_mod_cast this

/-- C4 witness: the small centered box is valid and the quality-score
characterisation holds for it. -/
theorem c4_quality_score_witness :
    ValidBox boxSmallCentered ∧
    (getFaceQualityScore boxSmallCentered =
      ((min (jsRound (min (calculateBoundingBoxArea boxSmallCentered * 400) 70
          + (if isFaceCentered boxSmallCentered 0.15 then 20 else 0)
          + (if 0.1 ≤ calculateBoundingBoxArea boxSmallCentered ∧
                calculateBoundingBoxArea boxSmallCentered ≤ 0.4
              then 10 else 0))) 100 : ℤ) : ℚ)
    ∧ (∃ n : ℤ, getFaceQualityScore boxSmallCentered = (n : ℚ))
    ∧ 0 ≤ getFaceQualityScore boxSmallCentered ∧
      getFaceQualityScore boxSmallCentered ≤ 100) := by
  refine ⟨?_, c4_quality_score boxSmallCentered ?_⟩ <;>
    norm_num [ValidBox, boxSmallCentered]

/-- C8 counterexample: at image dimensions 0 x 0 the source conversion still
returns pixel coordinates (the all-zero rectangle) instead of failing, while
the spec-modelled checked conversion signals invalid input. -/
theorem c8_counterexample :
    normalizedToPixelCoords zeroBox 0 0 =
      { left := 0, top := 0, width := 0, height := 0 } ∧
    normalizedToPixelCoordsChecked zeroBox 0 0 = none := by
  constructor
  · unfold normalizedToPixelCoords jsRound zeroBox
    norm_num
  · unfold normalizedToPixelCoordsChecked
    norm_num

/-- C8 (amended): the source conversion validates nothing and always returns
rounded products, even at zero dimensions; the checked conversion modelled
from the spec returns those pixel coordinates exactly under the precondition
imageWidth > 0 and imageHeight > 0, and fails otherwise. -/
theorem c8_pixel_conversion (b : BoundingBox) (w h : ℚ) :
    (0 < w ∧ 0 < h →
      normalizedToPixelCoordsChecked b w h = some (normalizedToPixelCoords b w h))
    ∧ (¬ (0 < w ∧ 0 < h) → normalizedToPixelCoordsChecked b w h = none)
    ∧ normalizedToPixelCoords b 0 0 = { left := 0, top := 0, width := 0, height := 0 } := by
  refine ⟨fun hpos => ?_, fun hneg => ?_, ?_⟩
  · unfold normalizedToPixelCoordsChecked normalizedToPixelCoords
    rw [if_pos hpos]
  · unfold normalizedToPixelCoordsChecked
    rw [if_neg hneg]
  · unfold normalizedToPixelCoords jsRound
    norm_num

/-- C8 witness: at 2 x 3 the checked conversion succeeds with the source
pixel coordinates; at 0 x 3 it fails. -/
theorem c8_pixel_conversion_witness :
    normalizedToPixelCoordsChecked boxSmallCentered 2 3 =
      some (normalizedToPixelCoords boxSmallCentered 2 3) ∧
    normalizedToPixelCoordsChecked boxSmallCentered 0 3 = none := by
  exact ⟨(c8_pixel_conversion boxSmallCentered 2 3).1 (by norm_num),
    (c8_pixel_conversion boxSmallCentered 0 3).2.1 (by norm_num)⟩

/-- Fallback to a one-message list when the accumulated list is empty never
yields the empty list. -/
theorem if_empty_default_ne_nil (L : List String) (m : String) :
    (if L.length = 0 then [m] else L) ≠ [] := by
  split
  · simp
  · next h => exact fun he => h (by rw [he]; rfl)

/-- C10: the analysis never returns an empty recommendation list: the
no-subject branch records one message, and when no quality rule fires the
single good-quality message is recorded. -/
theorem c10_recommendations_nonempty (referenceImage : Option FaceImage)
    (auditImages : List FaceImage) :
    (analyzeFaceDetectionResults referenceImage auditImages).recommendations ≠ [] := by
  cases referenceImage with
  | none => simp [analyzeFaceDetectionResults]
  | some r =>
    simp only [analyzeFaceDetectionResults]
    exact if_empty_default_ne_nil _ _

/-- Left fold of addition over rationals equals the starting value plus the
list sum. -/
theorem foldl_add_eq_add_sum (l : List ℚ) : ∀ a : ℚ, l.foldl (· + ·) a = a + l.sum := by
  induction l with
  | nil => intro a; simp
  | cons x xs ih =>
    intro a
    rw [List.foldl_cons, List.sum_cons, ih]
    ring

/-- C3: the analysis returns the no-subject record with zeroed scores when the
subject box is absent, and otherwise reports the mean quality over subject plus
audit boxes, the mean IoU against the audit boxes (0 with no audit boxes), and
exactly the applicable rule messages in order, or the single good-quality
message. -/
theorem c3_analyze_results :
    (∀ auditImages : List FaceImage,
      analyzeFaceDetectionResults none auditImages =
        { hasReferenceImage := false
          auditImageCount := auditImages.length
          averageQualityScore := 0
          consistencyScore := 0
          recommendations := ["No reference image available"] })
    ∧ (∀ (r : FaceImage) (auditImages : List FaceImage),
      analyzeFaceDetectionResults (some r) auditImages =
        { hasReferenceImage := true
          auditImageCount := auditImages.length
          averageQualityScore := specAverageQuality r auditImages
          consistencyScore := specConsistency r auditImages
          recommendations := specRecommendations r auditImages }) := by
  constructor
  · intro auditImages
    rfl
  · intro r auditImages
    have hsum : ∀ l : List ℚ, l.foldl (· + ·) (0 : ℚ) = l.sum := fun l => by
      rw [foldl_add_eq_add_sum, zero_add]
    simp only [analyzeFaceDetectionResults, specAverageQuality, specConsistency,
      specRecommendations, qualityList, FaceAnalysis.mk.injEq, hsum,
      Nat.pos_iff_ne_zero, ne_eq, ite_not, List.length_eq_zero, and_comm]

/-- Equation lemma: the loop on the empty list returns the carried best. -/
theorem findBestMatchGo_nil (ms : ℚ) (best : Option FaceComparisonResult) (h : ℚ) :
    findBestMatchGo ms [] best h = best := rfl

/-- Equation lemma: one loop step of `findBestMatch`. -/
theorem findBestMatchGo_cons (ms : ℚ) (r : FaceComparisonResult)
    (rest : List FaceComparisonResult) (best : Option FaceComparisonResult) (h : ℚ) :
    findBestMatchGo ms (r :: rest) best h =
      if basicQualifier ms r ∧ h < topSimilarity r then
        findBestMatchGo ms rest (some r) (topSimilarity r)
      else findBestMatchGo ms rest best h := rfl

/-- Equation lemma: the running maximum over the empty list. -/
theorem runningMax_nil (ms : ℚ) (h : ℚ) : runningMax ms [] h = h := rfl

/-- Equation lemma: the running maximum over a cons. -/
theorem runningMax_cons (ms : ℚ) (r : FaceComparisonResult)
    (rest : List FaceComparisonResult) (h : ℚ) :
    runningMax ms (r :: rest) h =
      if basicQualifier ms r then max (topSimilarity r) (runningMax ms rest h)
      else runningMax ms rest h := rfl

/-- The running maximum never drops below its starting value. -/
theorem le_runningMax (ms : ℚ) (l : List FaceComparisonResult) :
    ∀ h : ℚ, h ≤ runningMax ms l h := by
  induction l with
  | nil => intro h; rw [runningMax_nil]
  | cons r rest ih =>
    intro h
    rw [runningMax_cons]
    split
    · exact le_trans (ih h) (le_max_right _ _)
    · exact ih h

/-- A max in the starting value of the running maximum commutes outward. -/
theorem runningMax_max (ms : ℚ) (l : List FaceComparisonResult) :
    ∀ a b : ℚ, runningMax ms l (max a b) = max a (runningMax ms l b) := by
  induction l with
  | nil => intro a b; rw [runningMax_nil, runningMax_nil]
  | cons r rest ih =>
    intro a b
    rw [runningMax_cons, runningMax_cons]
    split
    · rw [ih]
      exact max_left_comm _ _ _
    · exact ih a b

/-- The running maximum is either the starting value or attained by a
qualifying outcome of the list. -/
theorem runningMax_attained (ms : ℚ) (l : List FaceComparisonResult) :
    ∀ h : ℚ, runningMax ms l h = h ∨
      ∃ x ∈ l, basicQualifier ms x ∧ topSimilarity x = runningMax ms l h := by
  induction l with
  | nil => intro h; exact Or.inl rfl
  | cons r rest ih =>
    intro h
    rw [runningMax_cons]
    split
    · next hbq =>
      rcases le_total (topSimilarity r) (runningMax ms rest h) with hle | hge
      · rw [max_eq_right hle]
        rcases ih h with heq | ⟨x, hx, hq, hs⟩
        · exact Or.inl heq
        · exact Or.inr ⟨x, List.mem_cons_of_mem _ hx, hq, hs⟩
      · rw [max_eq_left hge]
        exact Or.inr ⟨r, List.mem_cons_self _ _, hbq, rfl⟩
    · rcases ih h with heq | ⟨x, hx, hq, hs⟩
      · exact Or.inl heq
      · exact Or.inr ⟨x, List.mem_cons_of_mem _ hx, hq, hs⟩

/-- Two predicates that agree on every member of a list find the same first
element. -/
theorem find?_congr_on (p q : FaceComparisonResult → Bool) :
    ∀ l : List FaceComparisonResult,
      (∀ x ∈ l, p x = q x) → l.find? p = l.find? q := by
  intro l
  induction l with
  | nil => intro _; rfl
  | cons a t ih =>
    intro hpq
    have hpa : p a = q a := hpq a (List.mem_cons_self _ _)
    by_cases hq : q a = true
    · rw [List.find?_cons_of_pos _ (by rw [hpa]; exact hq),
        List.find?_cons_of_pos _ hq]
    · rw [List.find?_cons_of_neg _ (by rw [hpa]; exact hq),
        List.find?_cons_of_neg _ hq]
      exact ih fun x hx => hpq x (List.mem_cons_of_mem _ hx)

/-- The `some`-preserving fallback with no default is the identity. -/
theorem fallback_none (o : Option FaceComparisonResult) : fallback o none = o := by
  cases o <;> rfl

/-- Characterisation of the `findBestMatch` loop from an arbitrary state: it
returns the first outcome that qualifies, exceeds the start value and attains
the running maximum, and the carried best when no such outcome exists. -/
theorem findBestMatchGo_char (ms : ℚ) :
    ∀ (l : List FaceComparisonResult) (best : Option FaceComparisonResult) (h : ℚ),
      findBestMatchGo ms l best h = fallback (l.find? (selectorPred ms l h)) best := by
  intro l
  induction l with
  | nil => intro best h; rfl
  | cons r rest ih =>
    intro best h
    rw [findBestMatchGo_cons]
    by_cases hc : basicQualifier ms r ∧ h < topSimilarity r
    · rw [if_pos hc, ih]
      obtain ⟨hbq, hlt⟩ := hc
      have hMtot : runningMax ms (r :: rest) h =
          max (topSimilarity r) (runningMax ms rest h) := by
        rw [runningMax_cons, if_pos hbq]
      have hMsr : runningMax ms rest (topSimilarity r) =
          max (topSimilarity r) (runningMax ms rest h) := by
        conv_lhs =>
          rw [show topSimilarity r = max (topSimilarity r) h from (max_eq_left hlt.le).symm]
        exact runningMax_max ms rest (topSimilarity r) h
      rcases le_or_lt (runningMax ms rest h) (topSimilarity r) with hA1 | hA2
      · have hmax : runningMax ms (r :: rest) h = topSimilarity r := by
          rw [hMtot, max_eq_left hA1]
        have hpr : selectorPred ms (r :: rest) h r = true := by
          simp [selectorPred, hbq, hlt, hmax]
        rw [List.find?_cons_of_pos _ hpr]
        have hnone : rest.find? (selectorPred ms rest (topSimilarity r)) = none := by
          rw [List.find?_eq_none]
          intro x hx
          simp only [selectorPred, Bool.and_eq_true, decide_eq_true_eq, not_and]
          intro hab heq
          rw [hMsr, max_eq_left hA1] at heq
          exact absurd (heq ▸ hab.2) (lt_irrefl _)
        rw [hnone]
        rfl
      · have hmax : runningMax ms (r :: rest) h = runningMax ms rest h := by
          rw [hMtot, max_eq_right hA2.le]
        have hMsr' : runningMax ms rest (topSimilarity r) = runningMax ms rest h := by
          rw [hMsr, max_eq_right hA2.le]
        have hner : topSimilarity r ≠ runningMax ms rest h := ne_of_lt hA2
        have hpr : selectorPred ms (r :: rest) h r = false := by
          simp [selectorPred, hmax, hner]
        rw [List.find?_cons_of_neg _ (by simp [hpr])]
        have hcong : rest.find? (selectorPred ms rest (topSimilarity r)) =
            rest.find? (selectorPred ms (r :: rest) h) := by
          apply find?_congr_on
          intro x hx
          by_cases hxe : topSimilarity x = runningMax ms rest h
          · have h1 : topSimilarity r < topSimilarity x := hxe ▸ hA2
            have h2 : h < topSimilarity x := lt_trans hlt h1
            have h3 : h < runningMax ms rest h := lt_trans hlt hA2
            simp [selectorPred, hMsr', hmax, hxe, h1, h2, hA2, h3]
          · simp [selectorPred, hMsr', hmax, hxe]
        rw [hcong]
        have hne : runningMax ms rest h ≠ h := ne_of_gt (lt_trans hlt hA2)
        rcases runningMax_attained ms rest h with heq | ⟨x, hx, hq, hs⟩
        · exact absurd heq hne
        · have hfind : ∃ y, rest.find? (selectorPred ms (r :: rest) h) = some y := by
            cases hfo : rest.find? (selectorPred ms (r :: rest) h) with
            | some y => exact ⟨y, rfl⟩
            | none =>
              rw [List.find?_eq_none] at hfo
              have hxp : selectorPred ms (r :: rest) h x = true := by
                have h2 : h < topSimilarity x := by
                  rw [hs]
                  exact lt_trans hlt hA2
                have h3 : h < runningMax ms rest h := lt_trans hlt hA2
                simp [selectorPred, hmax, hq, h2, hs, h3]
              exact absurd hxp (by simpa using hfo x hx)
          obtain ⟨y, hy⟩ := hfind
          rw [hy]
          rfl
    · rw [if_neg hc, ih]
      have hmax : runningMax ms (r :: rest) h = runningMax ms rest h := by
        rw [runningMax_cons]
        split
        · next hbq =>
          have hsim : topSimilarity r ≤ h := by
            by_contra hlt
            exact hc ⟨hbq, lt_of_not_le hlt⟩
          exact max_eq_right (le_trans hsim (le_runningMax ms rest h))
        · rfl
      have hpr : selectorPred ms (r :: rest) h r = false := by
        by_cases hbq : basicQualifier ms r
        · have hnlt : ¬ h < topSimilarity r := fun hlt => hc ⟨hbq, hlt⟩
          simp [selectorPred, hnlt]
        · simp [selectorPred, hbq]
      rw [List.find?_cons_of_neg _ (by simp [hpr])]
      have hcong : rest.find? (selectorPred ms rest h) =
          rest.find? (selectorPred ms (r :: rest) h) := by
        apply find?_congr_on
        intro x hx
        simp only [selectorPred, hmax]
      rw [hcong]

/-- The claim-side highest qualifying similarity coincides with the running
maximum of the loop started at 0. -/
theorem highestQualifyingSim_eq_runningMax (ms : ℚ) (l : List FaceComparisonResult) :
    highestQualifyingSim ms l = runningMax ms l 0 := by
  induction l with
  | nil => rfl
  | cons r rest ih =>
    rw [runningMax_cons]
    unfold highestQualifyingSim qualifyingSims at *
    by_cases hbq : basicQualifier ms r
    · simp [List.filter_cons, hbq, ih]
    · simp [List.filter_cons, hbq, ih]

/-- C1 (amended): `findBestMatch` returns the first-encountered outcome among
successful non-empty-match outcomes whose top similarity meets the minimum, is
strictly positive, and is the highest such similarity (ties to the earliest);
none when no outcome so qualifies.  In particular, for top similarities 75 and
90 at minimum 80 it returns the second outcome only. -/
theorem c1_find_best_match :
    (∀ (comparisonResults : List FaceComparisonResult) (minimumSimilarity : ℚ),
      findBestMatch comparisonResults minimumSimilarity =
        selectBestMatchSpec comparisonResults minimumSimilarity)
    ∧ findBestMatch [mkOutcome 75 "Bob", mkOutcome 90 "Carol"] 80 =
        some (mkOutcome 90 "Carol") := by
  constructor
  · intro results ms
    unfold findBestMatch selectBestMatchSpec
    rw [findBestMatchGo_char, fallback_none]
    exact find?_congr_on _ _ results fun x _ => by
      simp only [selectorPred, highestQualifyingSim_eq_runningMax]
  · decide

/-- C1 counterexample: with an outcome of top similarity 0 and minimum
similarity 0, the claimed selector (first qualifier attaining the highest
qualifying similarity, with qualification only requiring similarity at or
above the minimum) picks the outcome, but the source returns none because the
running best starts at 0 and only strict improvements are kept. -/
theorem c1_counterexample :
    findBestMatch [mkOutcome 0 "Zed"] 0 = none ∧
    selectBestMatchClaimed [mkOutcome 0 "Zed"] 0 = some (mkOutcome 0 "Zed") := by
  constructor
  · decide
  · decide

/-- Any outcome the `findBestMatch` loop returns beyond its carried best is
successful with a non-empty match list. -/
theorem findBestMatchGo_success (ms : ℚ) :
    ∀ (l : List FaceComparisonResult) (best : Option FaceComparisonResult) (h : ℚ),
      (∀ b, best = some b → b.success = true ∧ b.«matches» ≠ []) →
      ∀ r, findBestMatchGo ms l best h = some r →
        r.success = true ∧ r.«matches» ≠ [] := by
  intro l
  induction l with
  | nil => intro best h hinv r hr; exact hinv r hr
  | cons x rest ih =>
    intro best h hinv r hr
    rw [findBestMatchGo_cons] at hr
    by_cases hc : basicQualifier ms x ∧ h < topSimilarity x
    · rw [if_pos hc] at hr
      refine ih (some x) (topSimilarity x) (fun b hb => ?_) r hr
      cases Option.some.inj hb
      exact ⟨hc.1.1, hc.1.2.1⟩
    · rw [if_neg hc] at hr
      exact ih best h hinv r hr

/-- Any outcome `findBestMatch` returns is successful with a non-empty match
list; in particular a failed outcome is never the best match. -/
theorem findBestMatch_success (l : List FaceComparisonResult) (ms : ℚ) :
    ∀ r, findBestMatch l ms = some r → r.success = true ∧ r.«matches» ≠ [] :=
  findBestMatchGo_success ms l none 0 (fun b hb => by cases hb)

/-- C7: the sequential driver yields one outcome per reference in input order;
a failing comparison call for a reference produces, at that position, a failed
outcome with an empty match list and an error string naming that reference,
without disturbing the other positions; and no failed outcome is ever the best
match. -/
theorem c7_sequential_driver :
    ∀ (compareFacesAPI : String → String → ℚ → Except String FaceComparisonResult)
      (livenessImageBase64 : String) (referenceImages : List ReferenceImage)
      (similarityThreshold : ℚ),
      (compareLivenessFaceWithReferences compareFacesAPI livenessImageBase64
          referenceImages similarityThreshold).length = referenceImages.length
      ∧ (∀ (i : ℕ) (refImage : ReferenceImage) (e : String),
          referenceImages.get? i = some refImage →
          compareFacesAPI livenessImageBase64 refImage.imageBase64 similarityThreshold =
            Except.error e →
          (compareLivenessFaceWithReferences compareFacesAPI livenessImageBase64
              referenceImages similarityThreshold).get? i =
            some { success := false
                   «matches» := []
                   unmatchedFaces := []
                   sourceImageFace :=
                     { BoundingBox := { Height := 0, Left := 0, Top := 0, Width := 0 }
                       Confidence := 0 }
                   error := some ("Failed to compare with " ++ refImage.name ++ ": " ++ e)
                   personId := some refImage.id
                   personName := some refImage.name })
      ∧ (∀ (ms : ℚ) (r : FaceComparisonResult),
          findBestMatch (compareLivenessFaceWithReferences compareFacesAPI
              livenessImageBase64 referenceImages similarityThreshold) ms = some r →
          r.success = true ∧ r.«matches» ≠ []) := by
  intro compareFacesAPI src refs thr
  refine ⟨by simp [compareLivenessFaceWithReferences], ?_, ?_⟩
  · intro i refImage e hget herr
    unfold compareLivenessFaceWithReferences
    rw [List.get?_map, hget]
    simp [herr]
  · intro ms r hr
    exact findBestMatch_success _ _ r hr

/-- C7 witness: with an always-throwing comparison API and the single
reference Alice, the driver yields one outcome, recorded at position 0 as the
failed outcome naming Alice. -/
theorem c7_sequential_driver_witness :
    (compareLivenessFaceWithReferences apiBoom "src" [refAlice] 80).length =
      [refAlice].length ∧
    (compareLivenessFaceWithReferences apiBoom "src" [refAlice] 80).get? 0 =
      some { success := false
             «matches» := []
             unmatchedFaces := []
             sourceImageFace :=
               { BoundingBox := { Height := 0, Left := 0, Top := 0, Width := 0 }
                 Confidence := 0 }
             error := some ("Failed to compare with " ++ refAlice.name ++ ": " ++ "boom")
             personId := some refAlice.id
             personName := some refAlice.name } :=
  ⟨(c7_sequential_driver apiBoom "src" [refAlice] 80).1,
    (c7_sequential_driver apiBoom "src" [refAlice] 80).2.1 0 refAlice "boom" rfl rfl⟩

/-- C2 counterexample: the report depends on the clock: identical liveness
results and outcomes stamped at two different instants give different
reports. -/
theorem c2_counterexample :
    createIdentificationReport "2024-01-01T00:00:00.000Z" livSample [] ≠
      createIdentificationReport "2024-01-01T00:00:01.000Z" livSample [] := by
  decide

/-- C2 (amended): apart from the timestamp, which records the invocation
instant, the report is a deterministic function of the liveness result and the
outcome list alone: reports stamped at any two instants agree on every other
field. -/
theorem c2_deterministic_modulo_timestamp :
    ∀ (ts1 ts2 : String) (livenessResult : LivenessResult)
      (comparisonResults : List FaceComparisonResult),
      (createIdentificationReport ts1 livenessResult comparisonResults).livenessCheck =
        (createIdentificationReport ts2 livenessResult comparisonResults).livenessCheck
      ∧ (createIdentificationReport ts1 livenessResult comparisonResults).faceComparison =
        (createIdentificationReport ts2 livenessResult comparisonResults).faceComparison
      ∧ (createIdentificationReport ts1 livenessResult comparisonResults).recommendation =
        (createIdentificationReport ts2 livenessResult comparisonResults).recommendation
      ∧ (createIdentificationReport ts1 livenessResult comparisonResults).isIdentified =
        (createIdentificationReport ts2 livenessResult comparisonResults).isIdentified :=
  fun _ _ _ _ => ⟨rfl, rfl, rfl, rfl⟩

/-- C5: the report counts all outcomes and the successful ones, takes its best
match from `findBestMatch` at the default threshold 80, summarises every
outcome, is identified exactly when a best match exists, and renders the
identified-as sentence with two-decimal similarity for a best match, else the
no-match sentence; in particular a best match named Alice with similarity
92.345 renders as 92.35 percent. -/
theorem c5_report :
    (∀ (now : String) (livenessResult : LivenessResult)
        (comparisonResults : List FaceComparisonResult),
      (createIdentificationReport now livenessResult
          comparisonResults).faceComparison.totalComparisons = comparisonResults.length
      ∧ (createIdentificationReport now livenessResult
          comparisonResults).faceComparison.successfulComparisons =
          (comparisonResults.filter (fun r => r.success)).length
      ∧ (createIdentificationReport now livenessResult
          comparisonResults).faceComparison.bestMatch =
          (findBestMatch comparisonResults 80).map bestMatchSummaryOf
      ∧ (createIdentificationReport now livenessResult
          comparisonResults).faceComparison.allResults =
          comparisonResults.map resultSummaryOf
      ∧ (createIdentificationReport now livenessResult comparisonResults).isIdentified =
          (findBestMatch comparisonResults 80).isSome
      ∧ (createIdentificationReport now livenessResult comparisonResults).recommendation =
          recommendationText (findBestMatch comparisonResults 80))
    ∧ (createIdentificationReport "t" livSample
        [mkOutcome ((92345 : ℚ)/1000) "Alice"]).recommendation =
        "Identified as Alice with 92.35% similarity" := by
  constructor
  · intro now livenessResult comparisonResults
    exact ⟨rfl, rfl, rfl, rfl, rfl, rfl⟩
  · have hbm : findBestMatch [mkOutcome ((92345 : ℚ)/1000) "Alice"] 80 =
        some (mkOutcome ((92345 : ℚ)/1000) "Alice") := by
      rw [findBestMatch, findBestMatchGo_cons, if_pos ?_, findBestMatchGo_nil]
      refine ⟨⟨rfl, by simp [mkOutcome], ?_⟩, ?_⟩ <;>
        norm_num [topSimilarity, mkOutcome]
    have hfix : jsToFixed2 ((92345 : ℚ)/1000) = "92.35" := by
      have h1 : jsRound ((92345 : ℚ)/1000 * 100) = 9235 := by
        rw [jsRound, show (92345 : ℚ)/1000 * 100 + 1/2 = ((9235 : ℤ) : ℚ) from by norm_num]
        exact Int.floor_intCast 9235
      rw [jsToFixed2, if_neg (by norm_num)]
      simp only [jsToFixed2Abs, h1]
      decide
    show recommendationText (findBestMatch [mkOutcome ((92345 : ℚ)/1000) "Alice"] 80) = _
    rw [hbm]
    simp only [recommendationText, mkOutcome, optionText]
    rw [hfix]
    decide
